import Mathlib

/-!
Shallow embedding of the mdigger/rabbitmq supervisor library.

The repository contains several near-duplicate revisions of the same design.
We embed the revisions cited by the claims:
  * `Connect` (src/connect.go): bounded dial retry loop;
  * `RunGo` (src/run.go, lines 39-90): the errgroup-based supervisor loop;
  * `RunSeq` (src/unnamed/part_001, lines 18-56): the sequential-setup
    supervisor loop;
  * `InitGo` / `InitSeq` and latch close counts (src/run.go lines 17-29 and
    src/unnamed/part_001 lines 61-83);
  * `Queue.string` / `Queue.declare` (src/queue.go);
  * `publishFn` / `applyDefaults` (src/unnamed/part_002, `Publish`) and
    `publishWorkerFn` (src/run.go lines 337-364, `PublishWorker`).

External collaborators (the amqp091 client, the broker, contexts, the
scheduler) are modelled as inputs: every dial attempt's outcome, every
sub-channel allocation's outcome, every worker's return value and the state
of the outer context at the loop's check point are data supplied per
connection generation.
-/

/-- Outcome of one `amqp091.Dial` attempt: a connection handle (abstracted to
a numeric id - Go guarantees a non-nil handle on nil error) or an error
message. -/
inductive DialResult where
  | ok (conn : Nat) : DialResult
  | err (e : String) : DialResult
deriving DecidableEq, Repr

/-- The pair returned by `Connect` (src/connect.go), together with a trace of
how many dial attempts and how many fixed `ReconnectDelay` sleeps were
performed. `conn`/`err` mirror Go's `(conn *amqp091.Connection, err error)`
with `none` standing for nil. -/
structure ConnectResult where
  conn : Option Nat
  err : Option String
  attempts : Nat
  sleeps : Nat
deriving DecidableEq, Repr

/-- The loop of `Connect` (src/connect.go lines 22-29): `fuel` is the number
of remaining iterations (`MaxIteration - i`), `i` the current attempt index,
`lastErr` the current value of the `err` variable, `attempts`/`sleeps` the
trace so far.  On a successful dial the connection is returned immediately;
on a failed dial the code sleeps `ReconnectDelay` and retries; when the fuel
is exhausted it returns `nil, err` (the last error, or nil if the body never
ran). -/
def connectAux (dial : Nat → DialResult) : Nat → Nat → Option String → Nat → Nat → ConnectResult
  | 0, _, lastErr, attempts, sleeps =>
      { conn := none, err := lastErr, attempts := attempts, sleeps := sleeps }
  | fuel + 1, i, _, attempts, sleeps =>
      match dial i with
      | DialResult.ok c =>
          { conn := some c, err := none, attempts := attempts + 1, sleeps := sleeps }
      | DialResult.err e =>
          connectAux dial fuel (i + 1) (some e) (attempts + 1) (sleeps + 1)

/-- Function `Connect` (src/connect.go lines 19-32): `for i := 0; i < MaxIteration; i++`
with `MaxIteration` a Go `int`, so an Int here; a non-positive bound means the
body never executes and `nil, nil` is returned. `dial i` is the outcome the
amqp091 client gives the i-th attempt. -/
def Connect (dial : Nat → DialResult) (maxIteration : Int) : ConnectResult :=
  connectAux dial maxIteration.toNat 0 none 0 0

theorem connectAux_ok_step (dial : Nat → DialResult) (fuel i : Nat) (lastErr : Option String)
    (a s c : Nat) (h : dial i = DialResult.ok c) :
    connectAux dial (fuel + 1) i lastErr a s =
      { conn := some c, err := none, attempts := a + 1, sleeps := s } := by
  simp [connectAux, h]

theorem connectAux_err_step (dial : Nat → DialResult) (fuel i : Nat) (lastErr : Option String)
    (a s : Nat) (e0 : String) (h : dial i = DialResult.err e0) :
    connectAux dial (fuel + 1) i lastErr a s =
      connectAux dial fuel (i + 1) (some e0) (a + 1) (s + 1) := by
  simp [connectAux, h]

theorem connectAux_attempts_le (dial : Nat → DialResult) :
    ∀ fuel i lastErr a s, (connectAux dial fuel i lastErr a s).attempts ≤ a + fuel := by
  intro fuel
  induction fuel with
  | zero => intro i lastErr a s; simp [connectAux]
  | succ f ih =>
      intro i lastErr a s
      cases h : dial i with
      | ok c =>
          rw [connectAux_ok_step dial f i lastErr a s c h]
          simp
      | err e =>
          rw [connectAux_err_step dial f i lastErr a s e h]
          have := ih (i + 1) (some e) (a + 1) (s + 1)
          omega

theorem connectAux_all_err (dial : Nat → DialResult) (e : Nat → String) :
    ∀ fuel i lastErr a s, 0 < fuel →
      (∀ j, j < fuel → dial (i + j) = DialResult.err (e (i + j))) →
      connectAux dial fuel i lastErr a s =
        { conn := none, err := some (e (i + fuel - 1)), attempts := a + fuel, sleeps := s + fuel } := by
  intro fuel
  induction fuel with
  | zero => intro i lastErr a s h; omega
  | succ f ih =>
      intro i lastErr a s _ hall
      have h0 : dial i = DialResult.err (e i) := by
        have := hall 0 (by omega)
        simpa using this
      rw [connectAux_err_step dial f i lastErr a s (e i) h0]
      cases f with
      | zero => simp [connectAux]
      | succ f2 =>
          have hrec := ih (i + 1) (some (e i)) (a + 1) (s + 1) (by omega)
            (by
              intro j hj
              have := hall (j + 1) (by omega)
              have hx : i + (j + 1) = i + 1 + j := by omega
              rwa [hx] at this)
          rw [hrec]
          have hx : i + 1 + (f2 + 1) - 1 = i + (f2 + 1 + 1) - 1 := by omega
          have ha : a + 1 + (f2 + 1) = a + (f2 + 1 + 1) := by omega
          have hs : s + 1 + (f2 + 1) = s + (f2 + 1 + 1) := by omega
          rw [hx, ha, hs]

theorem connectAux_first_ok (dial : Nat → DialResult) (e : Nat → String) (c : Nat) :
    ∀ k fuel i lastErr a s, (∀ j, j < k → dial (i + j) = DialResult.err (e (i + j))) →
      dial (i + k) = DialResult.ok c → k < fuel →
      connectAux dial fuel i lastErr a s =
        { conn := some c, err := none, attempts := a + k + 1, sleeps := s + k } := by
  intro k
  induction k with
  | zero =>
      intro fuel i lastErr a s _ hok hk
      cases fuel with
      | zero => omega
      | succ f =>
          simp only [Nat.add_zero] at hok
          rw [connectAux_ok_step dial f i lastErr a s c hok]
          simp
  | succ k2 ih =>
      intro fuel i lastErr a s hall hok hk
      cases fuel with
      | zero => omega
      | succ f =>
          have h0 : dial i = DialResult.err (e i) := by
            have := hall 0 (by omega)
            simpa using this
          rw [connectAux_err_step dial f i lastErr a s (e i) h0]
          have hrec := ih f (i + 1) (some (e i)) (a + 1) (s + 1)
            (by
              intro j hj
              have := hall (j + 1) (by omega)
              have hx : i + (j + 1) = i + 1 + j := by omega
              rwa [hx] at this)
            (by
              have hx : i + (k2 + 1) = i + 1 + k2 := by omega
              rwa [hx] at hok)
            (by omega)
          rw [hrec]
          have ha : a + 1 + k2 + 1 = a + (k2 + 1) + 1 := by omega
          have hs : s + 1 + k2 = s + (k2 + 1) := by omega
          rw [ha, hs]

theorem Connect_attempts_le (dial : Nat → DialResult) (mi : Int) :
    (Connect dial mi).attempts ≤ mi.toNat := by
  have := connectAux_attempts_le dial mi.toNat 0 none 0 0
  simpa [Connect] using this

theorem Connect_all_err (dial : Nat → DialResult) (mi : Int) (e : Nat → String)
    (h0 : 0 < mi.toNat) (hall : ∀ j, j < mi.toNat → dial j = DialResult.err (e j)) :
    Connect dial mi =
      { conn := none, err := some (e (mi.toNat - 1)), attempts := mi.toNat, sleeps := mi.toNat } := by
  have := connectAux_all_err dial e mi.toNat 0 none 0 0 h0
    (by intro j hj; simpa using hall j hj)
  simpa [Connect] using this

theorem Connect_first_ok (dial : Nat → DialResult) (mi : Int) (e : Nat → String) (c k : Nat)
    (hall : ∀ j, j < k → dial j = DialResult.err (e j))
    (hok : dial k = DialResult.ok c) (hk : k < mi.toNat) :
    Connect dial mi = { conn := some c, err := none, attempts := k + 1, sleeps := k } := by
  have := connectAux_first_ok dial e c k mi.toNat 0 none 0 0
    (by intro j hj; simpa using hall j hj) (by simpa using hok) hk
  simpa [Connect] using this

theorem Connect_nonpos (dial : Nat → DialResult) (mi : Int) (hmi : mi ≤ 0) :
    Connect dial mi = { conn := none, err := none, attempts := 0, sleeps := 0 } := by
  unfold Connect
  rw [Int.toNat_of_nonpos hmi]
  rfl

/-!
The supervisor loop.

One `GenScript` supplies the environment of one iteration of the reconnect
loop (one connection generation): the dial outcomes the amqp091 client gives
this generation's `Connect` call, the outcome of each worker's sub-channel
allocation (`conn.Channel()`), each worker's own return value, and whether the
outer context has been cancelled by the time the loop reaches its
`ctx.Err() != nil` check after tearing the generation down.  In both Run
revisions that check is the only place the context decides control flow, and
the error produced by the waiting phase is logged but never branched on, so
the waiting phase's particular outcome (connection closed vs. context done)
needs no further data.
-/

/-- Environment of one connection generation. -/
structure GenScript where
  dial : Nat → DialResult
  alloc : Nat → Option String
  workerRes : Nat → Option String
  ctxCancelled : Bool

/-- How `Run` ended, seen from the caller: returned a non-nil error, returned
nil, crashed with a run-time panic from dereferencing a nil connection
handle, or is still running after the scripted generations. -/
inductive RunOutcome where
  | retErr (e : String)
  | retNil
  | crash
  | running
deriving DecidableEq, Repr

/-- Result of a `Run` execution, with a trace: `connects` counts successful
`Connect` calls (generations entered), `workerCalls` counts worker
invocations - for the errgroup revision a worker is counted when its task is
started, since a started task invokes the worker exactly once - and
`lastCalls` counts the generations in which the last registered worker
(index `wc - 1`) was invoked.  `lastCalls` is what `Init`'s appended sentinel
worker needs. -/
structure RunResult where
  outcome : RunOutcome
  connects : Nat
  workerCalls : Nat
  lastCalls : Nat
deriving DecidableEq, Repr

/-- The channel-allocation loop of `Run` in src/run.go (lines 63-69): workers
are handed channels in order starting at index `i`; the first failing
`conn.Channel()` call stops the loop.  Returns the failing index and error,
or `none` when every allocation succeeds. -/
def firstAllocFail (alloc : Nat → Option String) : Nat → Nat → Option (Nat × String)
  | _, 0 => none
  | i, fuel + 1 =>
      match alloc i with
      | some e => some (i, e)
      | none => firstAllocFail alloc (i + 1) fuel

/-- The sequential setup loop of `Run` in src/unnamed/part_001 (lines 26-37):
for each worker a channel is allocated and the worker is invoked on it; the
loop breaks at the first allocation failure (worker not invoked) or the first
worker error (worker invoked).  Returns the number of workers invoked and
the `err` value after the loop. -/
def seqInit (alloc workerRes : Nat → Option String) : Nat → Nat → Nat × Option String
  | _, 0 => (0, none)
  | i, fuel + 1 =>
      match alloc i with
      | some e => (0, some e)
      | none =>
          match workerRes i with
          | some e => (1, some e)
          | none =>
              ((seqInit alloc workerRes (i + 1) fuel).1 + 1,
               (seqInit alloc workerRes (i + 1) fuel).2)

/-- Function `Run` of src/run.go (lines 39-90), the errgroup revision, over `wc`
registered workers.  Per iteration: `Connect`; a non-nil error is returned
wrapped as a connection error; a nil connection with nil error (possible when
`MaxIteration <= 0`) is then dereferenced by `conn.NotifyClose` /
`conn.Channel`, a run-time panic (`crash`).  Then channels are allocated
sequentially; the first failure closes the connection and returns a wrapped
channel-creation error (workers with earlier indices already had their tasks
started).  Otherwise all `wc` worker tasks run, `g.Wait()` joins them (its
error is assigned but only the `ctx.Err() != nil` test decides): a cancelled
outer context returns nil, anything else reconnects. -/
def RunGo (mi : Int) (wc : Nat) : List GenScript → RunResult
  | [] => { outcome := RunOutcome.running, connects := 0, workerCalls := 0, lastCalls := 0 }
  | s :: rest =>
      match (Connect s.dial mi).err with
      | some e =>
          { outcome := RunOutcome.retErr ("connection error: " ++ e),
            connects := 0, workerCalls := 0, lastCalls := 0 }
      | none =>
          match (Connect s.dial mi).conn with
          | none =>
              { outcome := RunOutcome.crash, connects := 0, workerCalls := 0, lastCalls := 0 }
          | some _ =>
              match firstAllocFail s.alloc 0 wc with
              | some ke =>
                  { outcome := RunOutcome.retErr ("channel creation error: " ++ ke.2),
                    connects := 1, workerCalls := ke.1, lastCalls := 0 }
              | none =>
                  if s.ctxCancelled then
                    { outcome := RunOutcome.retNil, connects := 1, workerCalls := wc,
                      lastCalls := if 0 < wc then 1 else 0 }
                  else
                    { outcome := (RunGo mi wc rest).outcome,
                      connects := 1 + (RunGo mi wc rest).connects,
                      workerCalls := wc + (RunGo mi wc rest).workerCalls,
                      lastCalls := (if 0 < wc then 1 else 0) + (RunGo mi wc rest).lastCalls }

/-- Function `Run` of src/unnamed/part_001 (lines 18-56), the sequential revision.
A `Connect` error is returned unwrapped; a nil connection with nil error is
dereferenced (`crash`).  Setup runs `seqInit`; whether or not setup failed,
the connection is closed and `ctx.Err() != nil` alone decides: cancelled
context returns nil, otherwise the loop reconnects and re-runs every worker
from scratch. -/
def RunSeq (mi : Int) (wc : Nat) : List GenScript → RunResult
  | [] => { outcome := RunOutcome.running, connects := 0, workerCalls := 0, lastCalls := 0 }
  | s :: rest =>
      match (Connect s.dial mi).err with
      | some e =>
          { outcome := RunOutcome.retErr e, connects := 0, workerCalls := 0, lastCalls := 0 }
      | none =>
          match (Connect s.dial mi).conn with
          | none =>
              { outcome := RunOutcome.crash, connects := 0, workerCalls := 0, lastCalls := 0 }
          | some _ =>
              if s.ctxCancelled then
                { outcome := RunOutcome.retNil, connects := 1,
                  workerCalls := (seqInit s.alloc s.workerRes 0 wc).1,
                  lastCalls :=
                    if 0 < wc ∧ (seqInit s.alloc s.workerRes 0 wc).1 = wc then 1 else 0 }
              else
                { outcome := (RunSeq mi wc rest).outcome,
                  connects := 1 + (RunSeq mi wc rest).connects,
                  workerCalls := (seqInit s.alloc s.workerRes 0 wc).1 + (RunSeq mi wc rest).workerCalls,
                  lastCalls :=
                    (if 0 < wc ∧ (seqInit s.alloc s.workerRes 0 wc).1 = wc then 1 else 0)
                      + (RunSeq mi wc rest).lastCalls }

/-- Function `Init` of src/run.go (lines 17-29): runs `Run` in a goroutine over the
caller's `wc` workers plus one appended sentinel worker (index `wc`), blocks
on the `stop` latch, and returns the captured `err`.  The caller's blocked
call returns nil if the sentinel fired the latch first (at that moment `err`
is still nil), and otherwise returns whatever `Run` returned when its
deferred latch fire unblocked the caller. -/
def InitGo (mi : Int) (wc : Nat) (scripts : List GenScript) : RunOutcome :=
  if 0 < (RunGo mi (wc + 1) scripts).lastCalls then RunOutcome.retNil
  else (RunGo mi (wc + 1) scripts).outcome

/-- Function `Init` of src/unnamed/part_001 (lines 61-83): same shape as `InitGo`, over
the sequential `Run` revision. -/
def InitSeq (mi : Int) (wc : Nat) (scripts : List GenScript) : RunOutcome :=
  if 0 < (RunSeq mi (wc + 1) scripts).lastCalls then RunOutcome.retNil
  else (RunSeq mi (wc + 1) scripts).outcome

/-- How many times `Init` of src/run.go (lines 17-29) executes
`close(stop)` over a scripted execution.  That revision closes the latch
unguarded in two places: inside the appended sentinel worker every time the
sentinel is invoked (once per generation whose fan-out reaches it,
`lastCalls`), and in the goroutine's `defer` when `Run` returns.  In Go,
closing an already-closed channel panics, so any count above 1 is a run-time
panic. -/
def closeCountGo (mi : Int) (wc : Nat) (scripts : List GenScript) : Nat :=
  (RunGo mi (wc + 1) scripts).lastCalls
    + (if (RunGo mi (wc + 1) scripts).outcome = RunOutcome.running then 0 else 1)

/-- How many times `Init` of src/unnamed/part_001 (lines 61-83) closes the
latch: both firing paths (the sentinel's `once.Do(end)` and the goroutine's
`defer once.Do(end)`) go through one shared `sync.Once`, so the latch closes
exactly once when either path is reached and never twice. -/
def closeCountSeq (mi : Int) (wc : Nat) (scripts : List GenScript) : Nat :=
  if 0 < (RunSeq mi (wc + 1) scripts).lastCalls
      ∨ (RunSeq mi (wc + 1) scripts).outcome ≠ RunOutcome.running then 1 else 0

theorem RunGo_connect_err (mi : Int) (wc : Nat) (s : GenScript) (rest : List GenScript)
    (e : String) (h : (Connect s.dial mi).err = some e) :
    RunGo mi wc (s :: rest) =
      { outcome := RunOutcome.retErr ("connection error: " ++ e),
        connects := 0, workerCalls := 0, lastCalls := 0 } := by
  simp [RunGo, h]

theorem RunSeq_connect_err (mi : Int) (wc : Nat) (s : GenScript) (rest : List GenScript)
    (e : String) (h : (Connect s.dial mi).err = some e) :
    RunSeq mi wc (s :: rest) =
      { outcome := RunOutcome.retErr e, connects := 0, workerCalls := 0, lastCalls := 0 } := by
  simp [RunSeq, h]

theorem RunGo_nil_conn (mi : Int) (wc : Nat) (s : GenScript) (rest : List GenScript)
    (he : (Connect s.dial mi).err = none) (hc : (Connect s.dial mi).conn = none) :
    RunGo mi wc (s :: rest) =
      { outcome := RunOutcome.crash, connects := 0, workerCalls := 0, lastCalls := 0 } := by
  simp [RunGo, he, hc]

theorem RunSeq_nil_conn (mi : Int) (wc : Nat) (s : GenScript) (rest : List GenScript)
    (he : (Connect s.dial mi).err = none) (hc : (Connect s.dial mi).conn = none) :
    RunSeq mi wc (s :: rest) =
      { outcome := RunOutcome.crash, connects := 0, workerCalls := 0, lastCalls := 0 } := by
  simp [RunSeq, he, hc]

theorem RunGo_alloc_fail (mi : Int) (wc : Nat) (s : GenScript) (rest : List GenScript)
    (v k : Nat) (e : String)
    (he : (Connect s.dial mi).err = none) (hc : (Connect s.dial mi).conn = some v)
    (ha : firstAllocFail s.alloc 0 wc = some (k, e)) :
    RunGo mi wc (s :: rest) =
      { outcome := RunOutcome.retErr ("channel creation error: " ++ e),
        connects := 1, workerCalls := k, lastCalls := 0 } := by
  simp [RunGo, he, hc, ha]

theorem RunGo_cancel (mi : Int) (wc : Nat) (s : GenScript) (rest : List GenScript) (v : Nat)
    (he : (Connect s.dial mi).err = none) (hc : (Connect s.dial mi).conn = some v)
    (ha : firstAllocFail s.alloc 0 wc = none) (hx : s.ctxCancelled = true) :
    RunGo mi wc (s :: rest) =
      { outcome := RunOutcome.retNil, connects := 1, workerCalls := wc,
        lastCalls := if 0 < wc then 1 else 0 } := by
  simp [RunGo, he, hc, ha, hx]

theorem RunGo_reconnect (mi : Int) (wc : Nat) (s : GenScript) (rest : List GenScript) (v : Nat)
    (he : (Connect s.dial mi).err = none) (hc : (Connect s.dial mi).conn = some v)
    (ha : firstAllocFail s.alloc 0 wc = none) (hx : s.ctxCancelled = false) :
    RunGo mi wc (s :: rest) =
      { outcome := (RunGo mi wc rest).outcome,
        connects := 1 + (RunGo mi wc rest).connects,
        workerCalls := wc + (RunGo mi wc rest).workerCalls,
        lastCalls := (if 0 < wc then 1 else 0) + (RunGo mi wc rest).lastCalls } := by
  simp [RunGo, he, hc, ha, hx]

theorem RunSeq_cancel (mi : Int) (wc : Nat) (s : GenScript) (rest : List GenScript) (v : Nat)
    (he : (Connect s.dial mi).err = none) (hc : (Connect s.dial mi).conn = some v)
    (hx : s.ctxCancelled = true) :
    RunSeq mi wc (s :: rest) =
      { outcome := RunOutcome.retNil, connects := 1,
        workerCalls := (seqInit s.alloc s.workerRes 0 wc).1,
        lastCalls :=
          if 0 < wc ∧ (seqInit s.alloc s.workerRes 0 wc).1 = wc then 1 else 0 } := by
  simp [RunSeq, he, hc, hx]

theorem RunSeq_reconnect (mi : Int) (wc : Nat) (s : GenScript) (rest : List GenScript) (v : Nat)
    (he : (Connect s.dial mi).err = none) (hc : (Connect s.dial mi).conn = some v)
    (hx : s.ctxCancelled = false) :
    RunSeq mi wc (s :: rest) =
      { outcome := (RunSeq mi wc rest).outcome,
        connects := 1 + (RunSeq mi wc rest).connects,
        workerCalls := (seqInit s.alloc s.workerRes 0 wc).1 + (RunSeq mi wc rest).workerCalls,
        lastCalls :=
          (if 0 < wc ∧ (seqInit s.alloc s.workerRes 0 wc).1 = wc then 1 else 0)
            + (RunSeq mi wc rest).lastCalls } := by
  simp [RunSeq, he, hc, hx]

/-!
Queue descriptors.

`Queue` of src/queue.go.  The broker is external: a declare request is
answered by a `reply` function from the requested name to the server's
answer, the pair `(queue.Name, err)` that `ch.QueueDeclare` returns (on
error amqp091 returns the zero `amqp091.Queue`, i.e. an empty name, which
the reply function models by answering an empty name alongside the error).
-/

/-- Queue descriptor (src/queue.go lines 8-16): exported declare parameters
plus the private `queue` field holding the server-confirmed (possibly
generated) name. -/
structure Queue where
  Name : String
  Durable : Bool
  AutoDelete : Bool
  Exclusive : Bool
  NoWait : Bool
  Args : List (String × String)
  queue : String
deriving DecidableEq, Repr

/-- Function `NewQueue` (src/queue.go lines 19-21): only `Name` is set. -/
def NewQueue (name : String) : Queue :=
  { Name := name, Durable := false, AutoDelete := false, Exclusive := false,
    NoWait := false, Args := [], queue := "" }

/-- Method `Queue.String` (src/queue.go lines 25-31): the stored generated name when
non-empty, otherwise the requested name. -/
def Queue.string (q : Queue) : String :=
  if q.queue ≠ "" then q.queue else q.Name

/-- The server's answer to one declare request: the confirmed queue name and
the error, mirroring `ch.QueueDeclare`'s `(amqp091.Queue, error)`. -/
structure DeclareReply where
  name : String
  err : Option String
deriving DecidableEq, Repr

/-- Method `Queue.declare` (src/queue.go lines 37-50): requests `q.String()` with the
descriptor's flags, stores the returned name into the private field
unconditionally, and returns the error. -/
def Queue.declare (q : Queue) (reply : String → DeclareReply) : Queue × Option String :=
  ({ q with queue := (reply q.string).name }, (reply q.string).err)

/-!
Publishing.

`Publish` of src/unnamed/part_002 returns a publisher closure reading an
atomic slot.  The slot holds, once some generation's worker has stored it,
the low-level send closure bound to that generation's sub-channel; we model
the slot as an `Option Nat` channel handle (none = never stored) and the
options captured at `Publish()` time as a `PublishOptions` value.  `now` is
the value `time.Now()` yields during the call, in Unix seconds.
-/

/-- The fields of `amqp091.Publishing` that `Publish` reads or writes, plus
representative pass-through fields.  `timestamp` is Unix seconds with 0 for
Go's zero time (`Timestamp.IsZero()`). -/
structure Publishing where
  messageId : String
  correlationId : String
  replyTo : String
  contentType : String
  timestamp : Nat
  expiration : String
  appId : String
  typ : String
  body : String
deriving DecidableEq, Repr

/-- Structure `publishOptions` (src/unnamed/part_002 lines 98-108).  `ttl` is in
seconds, 0 meaning unset (the code tests `options.ttl > 0`). -/
structure PublishOptions where
  mandatory : Bool
  immediate : Bool
  timestamp : Bool
  appID : String
  replyToQueue : Option Queue
  replyTo : String
  ttl : Nat
deriving DecidableEq, Repr

/-- Line 68-74 of src/unnamed/part_002: fill `ReplyTo` only when empty, from
the reply queue's current name when one is configured, else from the
configured string. -/
def setReplyTo (o : PublishOptions) (m : Publishing) : Publishing :=
  if m.replyTo = "" then
    { m with replyTo :=
        match o.replyToQueue with
        | some q => q.string
        | none => o.replyTo }
  else m

/-- Line 77-79: stamp the current time only when the timestamp is zero and
the option is enabled. -/
def setTimestamp (o : PublishOptions) (now : Nat) (m : Publishing) : Publishing :=
  if m.timestamp = 0 ∧ o.timestamp = true then { m with timestamp := now } else m

/-- Line 82-84: set `Expiration` to `FormatInt(now.Add(ttl).Unix())` only when
it is empty and a positive ttl is configured. -/
def setExpiration (o : PublishOptions) (now : Nat) (m : Publishing) : Publishing :=
  if m.expiration = "" ∧ 0 < o.ttl then { m with expiration := toString (now + o.ttl) } else m

/-- Line 87-89: a configured application id overwrites `AppId`
unconditionally. -/
def setAppId (o : PublishOptions) (m : Publishing) : Publishing :=
  if o.appID ≠ "" then { m with appId := o.appID } else m

/-- The whole default-filling sequence of the publisher closure
(src/unnamed/part_002 lines 67-89), in source order. -/
def applyDefaults (o : PublishOptions) (now : Nat) (m : Publishing) : Publishing :=
  setAppId o (setExpiration o now (setTimestamp o now (setReplyTo o m)))

/-- What one call of the publisher closure does. -/
inductive PublishOutcome where
  | sent (ch : Nat) (exchange key : String) (mandatory immediate : Bool) (msg : Publishing)
  | errNoChannel
deriving DecidableEq, Repr

/-- The publisher closure returned by `Publish` (src/unnamed/part_002 lines
52-92): load the slot; if it is nil return `ErrNoChannel`; otherwise fill
defaults and forward to the stored closure, which publishes on its captured
channel with the captured mandatory/immediate flags. -/
def publishFn (o : PublishOptions) (slot : Option Nat) (now : Nat)
    (exchange key : String) (m : Publishing) : PublishOutcome :=
  match slot with
  | none => PublishOutcome.errNoChannel
  | some ch =>
      PublishOutcome.sent ch exchange key o.mandatory o.immediate (applyDefaults o now m)

/-- What one call of the publisher closure of `PublishWorker` does. -/
inductive WorkerPublishOutcome where
  | sent (ch : Nat) (msg : Publishing)
  | errNoChannel
  | crash
deriving DecidableEq, Repr

/-- The publisher closure returned by `Queue.PublishWorker` (src/run.go lines
352-360): `channelPublisher.Load().(Publisher)`.  When the slot was never
stored, `Load()` yields a nil interface value and the unchecked type
assertion panics at run time, so the `if publish == nil` guard on the next
line is unreachable and `ErrNoChannel` is never returned. -/
def publishWorkerFn (slot : Option Nat) (m : Publishing) : WorkerPublishOutcome :=
  match slot with
  | none => WorkerPublishOutcome.crash
  | some ch => WorkerPublishOutcome.sent ch m

/-!
Claim theorems.
-/

/-- Claim C5: for every address, `Connect` performs at most `MaxIteration`
dial attempts with one fixed `ReconnectDelay` sleep recorded between
consecutive attempts (`sleeps` counts them), returns the connection of the
first successful dial immediately with no further attempt, and when every
attempt fails returns the error of the last attempt with a nil
connection. -/
theorem C5_connect_bounded_retry (dial : Nat → DialResult) (mi : Int) (e : Nat → String)
    (c k : Nat) :
    (Connect dial mi).attempts ≤ mi.toNat
  ∧ ((∀ j, j < k → dial j = DialResult.err (e j)) → dial k = DialResult.ok c → k < mi.toNat →
      Connect dial mi = { conn := some c, err := none, attempts := k + 1, sleeps := k })
  ∧ (0 < mi.toNat → (∀ j, j < mi.toNat → dial j = DialResult.err (e j)) →
      Connect dial mi =
        { conn := none, err := some (e (mi.toNat - 1)),
          attempts := mi.toNat, sleeps := mi.toNat }) :=
  ⟨Connect_attempts_le dial mi,
   fun hall hok hk => Connect_first_ok dial mi e c k hall hok hk,
   fun h0 hall => Connect_all_err dial mi e h0 hall⟩

/-- Concrete dial schedule for the C5 witness: two failures, then success. -/
def dialW : Nat → DialResult :=
  fun j => if j < 2 then DialResult.err ("dial fail " ++ toString j) else DialResult.ok 7

/-- Witness for C5 at a concrete schedule: the third attempt succeeds and is
returned immediately after two sleeps. -/
theorem C5_witness :
    Connect dialW 5 = { conn := some 7, err := none, attempts := 3, sleeps := 2 } :=
  (C5_connect_bounded_retry dialW 5 (fun j => "dial fail " ++ toString j) 7 2).2.1
    (by decide) (by decide) (by decide)

/-- Claim C10: with a non-positive `MaxIteration` the retry loop body never
executes, so `Connect` returns a nil connection together with a nil error;
both `Run` revisions treat the nil error as success and go on to call
`conn.NotifyClose` / `conn.Channel` on the nil handle, a run-time panic
(`crash`), before any worker is invoked. -/
theorem C10_nonpos_max (mi : Int) (dial : Nat → DialResult) (wc : Nat)
    (s : GenScript) (rest : List GenScript) (hmi : mi ≤ 0) :
    Connect dial mi = { conn := none, err := none, attempts := 0, sleeps := 0 }
  ∧ RunGo mi wc (s :: rest) =
      { outcome := RunOutcome.crash, connects := 0, workerCalls := 0, lastCalls := 0 }
  ∧ RunSeq mi wc (s :: rest) =
      { outcome := RunOutcome.crash, connects := 0, workerCalls := 0, lastCalls := 0 } := by
  have h := Connect_nonpos s.dial mi hmi
  refine ⟨Connect_nonpos dial mi hmi, ?_, ?_⟩
  · exact RunGo_nil_conn mi wc s rest (by rw [h]) (by rw [h])
  · exact RunSeq_nil_conn mi wc s rest (by rw [h]) (by rw [h])

/-- A healthy generation script for witnesses: dialing succeeds, every
allocation and worker succeeds, the context stays live. -/
def sHealthyW : GenScript :=
  { dial := fun _ => DialResult.ok 1, alloc := fun _ => none,
    workerRes := fun _ => none, ctxCancelled := false }

/-- Witness for C10 at `MaxIteration = -3`. -/
theorem C10_witness :
    RunGo (-3) 2 (sHealthyW :: []) =
      { outcome := RunOutcome.crash, connects := 0, workerCalls := 0, lastCalls := 0 } :=
  (C10_nonpos_max (-3) (fun _ => DialResult.ok 1) 2 sHealthyW [] (by decide)).2.1

/-- Claim C1: when every one of the `MaxIteration` dial attempts fails, both
`Run` revisions return immediately with a connection error carrying the last
dial error (src/run.go wraps it as `connection error: ...`, part_001 returns
it as is), no worker is ever invoked (`workerCalls = 0`), and `Init` over
either revision forwards that error to its caller. -/
theorem C1_all_dials_fail (mi : Int) (wc : Nat) (s : GenScript) (rest : List GenScript)
    (e : Nat → String) (h0 : 0 < mi.toNat)
    (hall : ∀ j, j < mi.toNat → s.dial j = DialResult.err (e j)) :
    RunGo mi wc (s :: rest) =
      { outcome := RunOutcome.retErr ("connection error: " ++ e (mi.toNat - 1)),
        connects := 0, workerCalls := 0, lastCalls := 0 }
  ∧ RunSeq mi wc (s :: rest) =
      { outcome := RunOutcome.retErr (e (mi.toNat - 1)),
        connects := 0, workerCalls := 0, lastCalls := 0 }
  ∧ InitGo mi wc (s :: rest) = RunOutcome.retErr ("connection error: " ++ e (mi.toNat - 1))
  ∧ InitSeq mi wc (s :: rest) = RunOutcome.retErr (e (mi.toNat - 1)) := by
  have hc : (Connect s.dial mi).err = some (e (mi.toNat - 1)) := by
    rw [Connect_all_err s.dial mi e h0 hall]
  refine ⟨RunGo_connect_err mi wc s rest _ hc, RunSeq_connect_err mi wc s rest _ hc, ?_, ?_⟩
  · unfold InitGo
    rw [RunGo_connect_err mi (wc + 1) s rest _ hc]
    simp
  · unfold InitSeq
    rw [RunSeq_connect_err mi (wc + 1) s rest _ hc]
    simp

/-- A generation script whose dialing always fails, for witnesses. -/
def sFailDialW : GenScript :=
  { dial := fun _ => DialResult.err "conn refused", alloc := fun _ => none,
    workerRes := fun _ => none, ctxCancelled := false }

/-- Witness for C1: with five failing dial attempts, the sequential `Init`
returns the last dial error and no worker ran. -/
theorem C1_witness :
    InitSeq 5 2 (sFailDialW :: []) = RunOutcome.retErr "conn refused" :=
  (C1_all_dials_fail 5 2 sFailDialW [] (fun _ => "conn refused") (by decide)
    (by decide)).2.2.2

/-- A generation that keeps the supervisor loop going: a successful connect,
all allocations succeed and the outer context is not cancelled at the
iteration's check point. -/
abbrev healthyStep (mi : Int) (wc : Nat) (t : GenScript) : Prop :=
  (Connect t.dial mi).err = none ∧ (Connect t.dial mi).conn.isSome = true
    ∧ firstAllocFail t.alloc 0 wc = none ∧ t.ctxCancelled = false

/-- Claim C2: if the outer context is cancelled while a connection is live
(generation `s`: connect succeeded, every allocation succeeded, and the
post-teardown `ctx.Err()` check observes the cancellation), then after any
number of earlier healthy generations both `Run` revisions return nil - not
an error - and perform no further reconnect: the connect count stops at the
cancelled generation whatever scripts follow. -/
theorem C2_cancel_returns_nil (mi : Int) (wc : Nat) (pre : List GenScript) (s : GenScript)
    (rest : List GenScript)
    (hpre : ∀ t ∈ pre, healthyStep mi wc t)
    (he : (Connect s.dial mi).err = none) (hc : (Connect s.dial mi).conn.isSome = true)
    (ha : firstAllocFail s.alloc 0 wc = none) (hx : s.ctxCancelled = true) :
    (RunGo mi wc (pre ++ s :: rest)).outcome = RunOutcome.retNil
  ∧ (RunGo mi wc (pre ++ s :: rest)).connects = pre.length + 1
  ∧ (RunSeq mi wc (pre ++ s :: rest)).outcome = RunOutcome.retNil
  ∧ (RunSeq mi wc (pre ++ s :: rest)).connects = pre.length + 1 := by
  induction pre with
  | nil =>
      obtain ⟨v, hv⟩ := Option.isSome_iff_exists.mp hc
      simp only [List.nil_append]
      rw [RunGo_cancel mi wc s rest v he hv ha hx, RunSeq_cancel mi wc s rest v he hv hx]
      simp
  | cons t pre ih =>
      obtain ⟨hte, htc, hta, htx⟩ := hpre t (by simp)
      obtain ⟨v, hv⟩ := Option.isSome_iff_exists.mp htc
      have ih2 := ih (by intro u hu; exact hpre u (by simp [hu]))
      simp only [List.cons_append]
      rw [RunGo_reconnect mi wc t (pre ++ s :: rest) v hte hv hta htx,
          RunSeq_reconnect mi wc t (pre ++ s :: rest) v hte hv htx]
      refine ⟨by simpa using ih2.1, ?_, by simpa using ih2.2.2.1, ?_⟩
      · have := ih2.2.1
        simp only [List.length_cons]
        omega
      · have := ih2.2.2.2
        simp only [List.length_cons]
        omega

/-- A generation script observing the cancellation at its check point, all
setup healthy, for witnesses. -/
def sCancelW : GenScript :=
  { dial := fun _ => DialResult.ok 1, alloc := fun _ => none,
    workerRes := fun _ => none, ctxCancelled := true }

/-- Witness for C2: one healthy generation, then cancellation; the loop made
exactly two connections even though another script was available. -/
theorem C2_witness :
    (RunSeq 5 2 ([sHealthyW] ++ sCancelW :: [sHealthyW])).connects = 2 :=
  (C2_cancel_returns_nil 5 2 [sHealthyW] sCancelW [sHealthyW] (by decide) (by decide)
    (by decide) (by decide) (by decide)).2.2.2

/-- A generation whose first sub-channel allocation fails on a live
connection, for C4. -/
def sAllocFailW : GenScript :=
  { dial := fun _ => DialResult.ok 1, alloc := fun _ => some "channel exhausted",
    workerRes := fun _ => none, ctxCancelled := false }

/-- Claim C4 counterexample: in the src/run.go revision of `Run`, a
sub-channel allocation failure on a live connection terminates `Run` with a
wrapped channel-creation error and never reconnects - even though a healthy
generation script was available next - contradicting the claim that this is
handled like a worker failure with teardown and reconnect. -/
theorem C4_counterexample :
    (RunGo 5 1 [sAllocFailW, sHealthyW]).outcome
        = RunOutcome.retErr "channel creation error: channel exhausted"
  ∧ (RunGo 5 1 [sAllocFailW, sHealthyW]).connects = 1 := by decide

/-- Claim C4 amended: a sub-channel allocation failure on a live connection
makes the src/run.go revision of `Run` close the connection and return a
wrapped channel-creation error without reconnecting, while the sequential
revision (src/unnamed/part_001) treats it like a worker failure: the
connection is torn down and, the context being live, the loop reconnects and
processes the remaining generations with all workers again. -/
theorem C4_alloc_failure (mi : Int) (wc : Nat) (s : GenScript) (rest : List GenScript)
    (v k : Nat) (e : String)
    (he : (Connect s.dial mi).err = none) (hc : (Connect s.dial mi).conn = some v)
    (ha : firstAllocFail s.alloc 0 wc = some (k, e)) (hx : s.ctxCancelled = false) :
    RunGo mi wc (s :: rest) =
      { outcome := RunOutcome.retErr ("channel creation error: " ++ e),
        connects := 1, workerCalls := k, lastCalls := 0 }
  ∧ (RunSeq mi wc (s :: rest)).outcome = (RunSeq mi wc rest).outcome
  ∧ (RunSeq mi wc (s :: rest)).connects = 1 + (RunSeq mi wc rest).connects := by
  refine ⟨RunGo_alloc_fail mi wc s rest v k e he hc ha, ?_, ?_⟩
  · rw [RunSeq_reconnect mi wc s rest v he hc hx]
  · rw [RunSeq_reconnect mi wc s rest v he hc hx]

/-- Witness for the amended C4: the sequential revision reconnects past the
allocation failure. -/
theorem C4_witness :
    (RunSeq 5 2 (sAllocFailW :: [sHealthyW])).connects
      = 1 + (RunSeq 5 2 [sHealthyW]).connects :=
  (C4_alloc_failure 5 2 sAllocFailW [sHealthyW] 1 0 "channel exhausted"
    (by decide) (by decide) (by decide) rfl).2.2

/-- First-generation broker model for C6: honours any non-empty requested
name, generates `amq.gen-1` for an empty request. -/
def replyGen1 : String → DeclareReply :=
  fun n => if n = "" then { name := "amq.gen-1", err := none } else { name := n, err := none }

/-- Second-generation broker model for C6: same, with a fresh generated name
`amq.gen-2` for an empty request. -/
def replyGen2 : String → DeclareReply :=
  fun n => if n = "" then { name := "amq.gen-2", err := none } else { name := n, err := none }

/-- Claim C6 counterexample: declaring an empty-named queue on two connection
generations does not request a fresh server-generated name the second time.
`declare` passes `q.String()`, which after the first declare is the stored
generated name `amq.gen-1`, so the second declare re-requests the dead
connection's name and the two effective names are equal, not different -
even against a broker that would have generated the fresh `amq.gen-2` for an
empty request. -/
theorem C6_counterexample :
    (((NewQueue "").declare replyGen1).1).string = "amq.gen-1"
  ∧ (((((NewQueue "").declare replyGen1).1).declare replyGen2).1).string = "amq.gen-1"
  ∧ ¬ ((((NewQueue "").declare replyGen1).1).string
        ≠ (((((NewQueue "").declare replyGen1).1).declare replyGen2).1).string) := by decide

/-- Claim C6 amended: with a non-empty requested name the effective name is
stable across generations (the broker echoing named requests); with an empty
requested name the second declare requests the name generated on the first
generation - `String()` of the declared queue - so the effective name re-uses
the dead connection's generated name instead of picking up a fresh one. -/
theorem C6_redeclare (n g : String) (r1 r2 : String → DeclareReply)
    (hn : n ≠ "") (hg : g ≠ "")
    (hecho1 : ∀ m, m ≠ "" → (r1 m).name = m)
    (hecho2 : ∀ m, m ≠ "" → (r2 m).name = m)
    (hgen : (r1 "").name = g) :
    (((NewQueue n).declare r1).1).string = n
  ∧ (((((NewQueue n).declare r1).1).declare r2).1).string = n
  ∧ (((NewQueue "").declare r1).1).string = g
  ∧ (((((NewQueue "").declare r1).1).declare r2).1).string = g := by
  have hq1 : ((NewQueue n).declare r1).1 =
      { Name := n, Durable := false, AutoDelete := false, Exclusive := false,
        NoWait := false, Args := [], queue := n } := by
    simp [NewQueue, Queue.declare, Queue.string, hecho1 n hn]
  have hs1 : (((NewQueue n).declare r1).1).string = n := by
    rw [hq1]; simp [Queue.string, hn]
  have hq2 : ((((NewQueue n).declare r1).1).declare r2).1 =
      { Name := n, Durable := false, AutoDelete := false, Exclusive := false,
        NoWait := false, Args := [], queue := n } := by
    rw [hq1]
    simp [Queue.declare, Queue.string, hn, hecho2 n hn]
  have hqe1 : ((NewQueue "").declare r1).1 =
      { Name := "", Durable := false, AutoDelete := false, Exclusive := false,
        NoWait := false, Args := [], queue := g } := by
    simp [NewQueue, Queue.declare, Queue.string, hgen]
  have hse1 : (((NewQueue "").declare r1).1).string = g := by
    rw [hqe1]; simp [Queue.string, hg]
  have hqe2 : ((((NewQueue "").declare r1).1).declare r2).1 =
      { Name := "", Durable := false, AutoDelete := false, Exclusive := false,
        NoWait := false, Args := [], queue := g } := by
    rw [hqe1]
    simp [Queue.declare, Queue.string, hg, hecho2 g hg]
  refine ⟨hs1, ?_, hse1, ?_⟩
  · rw [hq2]; simp [Queue.string, hn]
  · rw [hqe2]; simp [Queue.string, hg]

/-- Witness for the amended C6: a fixed name stays `jobs`; the empty name
stays `amq.gen-1` on the second generation. -/
theorem C6_witness :
    (((((NewQueue "").declare replyGen1).1).declare replyGen2).1).string = "amq.gen-1" :=
  (C6_redeclare "jobs" "amq.gen-1" replyGen1 replyGen2 (by decide) (by decide)
    (fun m hm => by simp [replyGen1, hm])
    (fun m hm => by simp [replyGen2, hm])
    (by decide)).2.2.2

/-- A concrete outgoing message with no reply-to, timestamp, expiration or
application id set, for witnesses. -/
def msgW : Publishing :=
  { messageId := "msg.001", correlationId := "", replyTo := "", contentType := "text/plain",
    timestamp := 0, expiration := "", appId := "", typ := "", body := "data" }

/-- Default publish options, for witnesses. -/
def optsW : PublishOptions :=
  { mandatory := false, immediate := false, timestamp := false, appID := "",
    replyToQueue := none, replyTo := "", ttl := 0 }

/-- Claim C3 (evaluation at the failing input): with the shared slot never
stored, the publisher returned by `Publish` (src/unnamed/part_002) returns
`ErrNoChannel` synchronously, but the publisher returned by `PublishWorker`
(src/run.go lines 337-364) panics on the unchecked type assertion
`channelPublisher.Load().(Publisher)` applied to a nil interface, and never
reaches its `ErrNoChannel` return. -/
theorem C3_empty_slot :
    publishFn optsW none 0 "" "test.queue" msgW = PublishOutcome.errNoChannel
  ∧ publishWorkerFn none msgW = WorkerPublishOutcome.crash
  ∧ publishWorkerFn none msgW ≠ WorkerPublishOutcome.errNoChannel := by decide

theorem applyDefaults_eq (o : PublishOptions) (now : Nat) (m : Publishing) :
    applyDefaults o now m =
      { m with
        replyTo := if m.replyTo = "" then
            (match o.replyToQueue with
             | some q => q.string
             | none => o.replyTo)
          else m.replyTo,
        timestamp := if m.timestamp = 0 ∧ o.timestamp = true then now else m.timestamp,
        expiration := if m.expiration = "" ∧ 0 < o.ttl then toString (now + o.ttl)
          else m.expiration,
        appId := if o.appID ≠ "" then o.appID else m.appId } := by
  by_cases h1 : m.replyTo = "" <;>
  by_cases h2 : m.timestamp = 0 ∧ o.timestamp = true <;>
  by_cases h3 : m.expiration = "" ∧ 0 < o.ttl <;>
  by_cases h4 : o.appID ≠ "" <;>
  simp [applyDefaults, setReplyTo, setTimestamp, setExpiration, setAppId, h1, h2, h3, h4]

/-- Claim C7: when a send closure is stored, the publisher forwards the
message to it on the stored channel with the configured mandatory/immediate
flags, where: `ReplyTo` is set to the configured reply queue's current name
(or the configured reply-to string) only when the message's `ReplyTo` was
empty; `Timestamp` is set to the current time only when it was zero and the
timestamp option is enabled; `Expiration` is computed from the configured
ttl only when it was empty and a positive ttl was configured; `AppId` is
overwritten with the configured application id whenever one is configured;
and every other field is forwarded unchanged. -/
theorem C7_publish_defaults (o : PublishOptions) (ch now : Nat) (exchange key : String)
    (m : Publishing) :
    publishFn o (some ch) now exchange key m =
      PublishOutcome.sent ch exchange key o.mandatory o.immediate
        { m with
          replyTo := if m.replyTo = "" then
              (match o.replyToQueue with
               | some q => q.string
               | none => o.replyTo)
            else m.replyTo,
          timestamp := if m.timestamp = 0 ∧ o.timestamp = true then now else m.timestamp,
          expiration := if m.expiration = "" ∧ 0 < o.ttl then toString (now + o.ttl)
            else m.expiration,
          appId := if o.appID ≠ "" then o.appID else m.appId } := by
  unfold publishFn
  rw [applyDefaults_eq]

/-- Claim C8 (evaluation at the failing input): in the src/run.go revision of
`Init` the latch is closed twice when the first generation initializes
successfully (the appended sentinel closes `stop`) and `Run` then returns
because the context was cancelled (the goroutine's deferred `close(stop)`
fires on the already-closed channel - a run-time panic); whereas in the
src/unnamed/part_001 revision both firing paths share one `sync.Once`, so
the latch closes at most once in every execution. -/
theorem C8_latch_close :
    closeCountGo 5 0 [sCancelW] = 2
  ∧ (∀ mi wc scripts, closeCountSeq mi wc scripts ≤ 1) := by
  constructor
  · decide
  · intro mi wc scripts
    unfold closeCountSeq
    split <;> omega

/-- Claim C9: `declare` leaves every exported field of the descriptor - Name,
Durable, AutoDelete, Exclusive, NoWait, Args - unchanged; the only field it
writes is the private effective-name field, which receives the server's
returned name for the request `q.String()`; the call returns the server's
error; and `String()` yields the recorded effective name when non-empty and
the requested `Name` otherwise. -/
theorem C9_declare_frame (q : Queue) (reply : String → DeclareReply) :
    ((q.declare reply).1).Name = q.Name
  ∧ ((q.declare reply).1).Durable = q.Durable
  ∧ ((q.declare reply).1).AutoDelete = q.AutoDelete
  ∧ ((q.declare reply).1).Exclusive = q.Exclusive
  ∧ ((q.declare reply).1).NoWait = q.NoWait
  ∧ ((q.declare reply).1).Args = q.Args
  ∧ ((q.declare reply).1).queue = (reply q.string).name
  ∧ (q.declare reply).2 = (reply q.string).err
  ∧ q.string = (if q.queue ≠ "" then q.queue else q.Name) :=
  ⟨rfl, rfl, rfl, rfl, rfl, rfl, rfl, rfl, rfl⟩
